import Mathlib

/-!
# The F1 2020 telemetry page (`f12020/f12020matrix/telemetry_html.h`)

The header holds one HTML document with an inline script.  This file embeds the
script (`message_from_server`, `start` and the three socket handlers installed
by `start`) together with the document tree they act on, and proves the
properties of the page's message contract.

Platform functions that the source calls but does not define are the fields of
a `Browser`: `JSON.parse`, the conversion of a value to the string that the
`innerHTML` setter parses, the HTML fragment parser, and the check the
`WebSocket` constructor makes on its URL.  Every theorem holds for every
browser; `sampleBrowser` gives their values on the inputs of the examples.
-/

namespace Telemetry

/-! ## JavaScript values -/

/-- A JavaScript number as `JSON.parse` can produce it: a finite value (every
finite double is a rational) or an infinity (an out-of-range literal). -/
inductive JsNumber where
  | finite (q : ℚ)
  | infinity (negative : Bool)
  deriving DecidableEq

/-- A JavaScript value: what `JSON.parse` returns, plus `undefined` (the value of
a property that is absent).  An object lists its own properties, each name
once. -/
inductive JVal where
  | undefined
  | null
  | bool (b : Bool)
  | num (n : JsNumber)
  | str (s : String)
  | arr (items : List JVal)
  | obj (members : List (String × JVal))

/-- The errors the script can raise. -/
inductive JsError where
  | SyntaxError
  | TypeError
  | SecurityError
  deriving DecidableEq, Repr

/-- Reading a property of `null` or `undefined` throws a TypeError. -/
def JVal.isNullish : JVal → Bool
  | .undefined => true
  | .null => true
  | _ => false

/-- The value of `v.key` for a value that is not nullish, for the property names
the script reads (`type` and the eighteen field names; no built-in prototype
defines any of them): the member of an object, `undefined` when the object has
no such member or when `v` is not an object. -/
def JVal.get (v : JVal) (key : String) : JVal :=
  match v with
  | .obj members => (members.lookup key).getD .undefined
  | _ => .undefined

/-- The test `v === k` against a numeric literal: strict equality holds only for
a value that is a number and has that value. -/
def JVal.strictEqNum (v : JVal) (k : ℚ) : Bool :=
  match v with
  | .num (.finite q) => decide (q = k)
  | _ => false

/-! ## The document -/

/-- The two inline style properties the script writes; the empty string is an
unset property. -/
structure Style where
  backgroundColor : String := ""
  color : String := ""
  deriving DecidableEq

/-- A sequence of sibling nodes in document order: empty, a text node followed
by its later siblings, or an element with its child nodes followed by its
later siblings.  A document is the sequence holding its root element. -/
inductive Dom where
  | nil
  | text (s : String) (next : Dom)
  | elem (tag : String) (id : Option String) (style : Style) (kids : Dom) (next : Dom)
  deriving DecidableEq

/-- An element as a lookup returns it: its tag, id, inline style and child
nodes (what `innerHTML` reads). -/
structure Element where
  tag : String
  id : Option String
  style : Style
  kids : Dom
  deriving DecidableEq

/-- The first element in tree order with id `i`, as
`document.getElementById(i)`; `none` is the JavaScript `null`.  An element
comes before its children, and its children before its later siblings. -/
def getElementById : Dom → String → Option Element
  | .nil, _ => none
  | .text _ next, i => getElementById next i
  | .elem tag id st kids next, i =>
    if id = some i then some ⟨tag, id, st, kids⟩
    else
      match getElementById kids i with
      | some e => some e
      | none => getElementById next i

/-- Apply `f` to the element `getElementById` returns, in place, leaving the
document as it is when there is none. -/
def modifyById (i : String) (f : Element → Element) : Dom → Dom
  | .nil => .nil
  | .text s next => .text s (modifyById i f next)
  | .elem tag id st kids next =>
    if id = some i then
      .elem (f ⟨tag, id, st, kids⟩).tag (f ⟨tag, id, st, kids⟩).id
        (f ⟨tag, id, st, kids⟩).style (f ⟨tag, id, st, kids⟩).kids next
    else if (getElementById kids i).isSome then .elem tag id st (modifyById i f kids) next
    else .elem tag id st kids (modifyById i f next)

/-- The function objects the script assigns to socket handler slots. -/
inductive Handler where
  | websock_onopen
  | websock_onclose
  | websock_onerror
  | message_from_server
  deriving DecidableEq, Repr

/-- A `WebSocket` object: the URL it was constructed with and its four handler
slots. -/
structure WebSocket where
  url : String
  onopen : Option Handler := none
  onclose : Option Handler := none
  onerror : Option Handler := none
  onmessage : Option Handler := none
  deriving DecidableEq

/-- The parts of `window.location`. -/
structure Location where
  protocol : String
  hostname : String
  port : String
  deriving DecidableEq

/-- The platform functions the script calls. -/
structure Browser where
  /-- The value of `JSON.parse(text)`; `none` when it throws the SyntaxError. -/
  JSON_parse : String → Option JVal
  /-- The string the `innerHTML` setter makes of the assigned value before
  parsing it; `none` when the conversion throws the TypeError (an object whose
  `toString` is not callable). -/
  toDOMString : JVal → Option String
  /-- The nodes the HTML fragment parser makes of a string assigned to
  `innerHTML` of an element with the given tag. -/
  parseFragment : String → String → Dom
  /-- The error `new WebSocket(url)` throws on a page at the given location;
  `none` when it constructs the socket. -/
  webSocketError : Location → String → Option JsError

/-- The events the page reacts to. -/
inductive Event where
  | load
  | sockOpen
  | sockClose
  | sockError
  | sockMessage (data : String)
  deriving DecidableEq

/-- One `console.log` call: the label passed first, if any, and the event. -/
structure LogEntry where
  label : Option String
  evt : Event
  deriving DecidableEq

/-- The state of the page: the location it was served from, the document, the
two script globals `websock` and `connected`, the console, and the URL of every
`WebSocket` constructed so far (oldest first). -/
structure Page where
  location : Location
  document : Dom
  websock : Option WebSocket
  connected : Bool
  console : List LogEntry
  sockets : List String

/-- A handler run: the page it leaves and the error it threw, if any.  An
uncaught error ends the handler; what it wrote before stays written. -/
structure Outcome where
  page : Page
  thrown : Option JsError

/-- A piece of script acting on the page. -/
abbrev Script := Page → Outcome

/-- Run statements in order, stopping at the first that throws. -/
def seqAll : List Script → Script
  | [], p => ⟨p, none⟩
  | s :: rest, p =>
    match (s p).thrown with
    | none => seqAll rest (s p).page
    | some err => ⟨(s p).page, some err⟩

/-- The call `console.log(label, evt)`. -/
def console_log (label : Option String) (evt : Event) (p : Page) : Page :=
  { p with console := p.console ++ [⟨label, evt⟩] }

/-- The write `innerHTML = ...` on one element: its children are replaced by
the parsed nodes `nodes`. -/
def withKids (nodes : Dom) (e : Element) : Element := { e with kids := nodes }

/-- The statement `document.getElementById(i).innerHTML = v`: a TypeError when
the lookup returns null or when the value has no string conversion; otherwise
the children of the element found are replaced by the nodes parsed from the
string of `v`. -/
def setInnerHTML (B : Browser) (i : String) (v : JVal) : Script := fun p =>
  match getElementById p.document i with
  | none => ⟨p, some .TypeError⟩
  | some e =>
    match B.toDOMString v with
    | none => ⟨p, some .TypeError⟩
    | some s =>
      ⟨{ p with document := modifyById i (withKids (B.parseFragment e.tag s)) p.document },
        none⟩

/-- The write `e.style.backgroundColor = bg` on one element. -/
def withBackground (bg : String) (e : Element) : Element :=
  { e with style := { e.style with backgroundColor := bg } }

/-- The write `e.style.color = fg` on one element. -/
def withColor (fg : String) (e : Element) : Element :=
  { e with style := { e.style with color := fg } }

/-- The statements `var e = document.getElementById(i); e.style.backgroundColor
= bg; e.style.color = fg`: a TypeError at the first write when `e` is null. -/
def setStatusColours (i : String) (bg fg : String) : Script := fun p =>
  match getElementById p.document i with
  | none => ⟨p, some .TypeError⟩
  | some _ =>
    let d1 := modifyById i (withBackground bg) p.document
    let d2 := modifyById i (withColor fg) d1
    ⟨{ p with document := d2 }, none⟩

/-! ## The script -/

/-- The function `message_from_server(evt)`, with `evt.data` the text of the
message. -/
def message_from_server (B : Browser) (data : String) : Script := fun p =>
  let p := console_log none (.sockMessage data) p
  match B.JSON_parse data with
  | none => ⟨p, some .SyntaxError⟩
  | some obj =>
    if obj.isNullish then ⟨p, some .TypeError⟩
    else if (obj.get "type").strictEqNum 1 then
      seqAll
        [ setInnerHTML B "gear" (obj.get "gear"),
          setInnerHTML B "speed" (obj.get "speed"),
          setInnerHTML B "rpm" (obj.get "rpm"),
          setInnerHTML B "drs" (obj.get "drs"),
          setInnerHTML B "revLights" (obj.get "revLights"),
          setInnerHTML B "engineTemp" (obj.get "engineTemp") ] p
    else if (obj.get "type").strictEqNum 2 then
      seqAll
        [ setInnerHTML B "fuel_mix" (obj.get "fuel_mix"),
          setInnerHTML B "front_brake_bias" (obj.get "front_brake_bias"),
          setInnerHTML B "fuel_remaining_laps" (obj.get "fuel_remaining_laps") ] p
    else if (obj.get "type").strictEqNum 3 then
      seqAll
        [ setInnerHTML B "ers_store_energy" (obj.get "ers_store_energy"),
          setInnerHTML B "ers_deploy_mode" (obj.get "ers_deploy_mode"),
          setInnerHTML B "ers_deployed_this_lap" (obj.get "ers_deployed_this_lap") ] p
    else if (obj.get "type").strictEqNum 4 then
      seqAll
        [ setInnerHTML B "brakes" (obj.get "brakes"),
          setInnerHTML B "tyres_surface" (obj.get "tyres_surface"),
          setInnerHTML B "tyres_inner" (obj.get "tyres_inner") ] p
    else if (obj.get "type").strictEqNum 5 then
      seqAll
        [ setInnerHTML B "diff_on_throttle" (obj.get "diff_on_throttle"),
          setInnerHTML B "diff_off_throttle" (obj.get "diff_off_throttle") ] p
    else if (obj.get "type").strictEqNum 6 then
      seqAll [ setInnerHTML B "orientation" (obj.get "orientation") ] p
    else ⟨p, none⟩

/-- The function assigned to `websock.onopen`. -/
def websock_onopen (evt : Event) : Script := fun p =>
  let p := console_log (some "websock onopen") evt p
  let p := { p with connected := true }
  setStatusColours "webSockStatus" "green" "white" p

/-- The function assigned to `websock.onclose`. -/
def websock_onclose (evt : Event) : Script := fun p =>
  let p := console_log (some "websock onclose") evt p
  let p := { p with connected := false }
  setStatusColours "webSockStatus" "red" "white" p

/-- The function assigned to `websock.onerror`. -/
def websock_onerror (evt : Event) : Script := fun p =>
  ⟨console_log (some "websock onerror") evt p, none⟩

/-- The URL `start` passes to the `WebSocket` constructor. -/
def socketUrl (loc : Location) : String := "ws://" ++ loc.hostname ++ ":81/"

/-- The function `start()`: construct the socket and fill its handler slots.
When the constructor throws, the assignment to `websock` and the rest of the
function are not reached. -/
def start (B : Browser) : Script := fun p =>
  match B.webSocketError p.location (socketUrl p.location) with
  | some err => ⟨p, some err⟩
  | none =>
    let ws : WebSocket := { url := socketUrl p.location }
    let ws := { ws with onopen := some .websock_onopen }
    let ws := { ws with onclose := some .websock_onclose }
    let ws := { ws with onerror := some .websock_onerror }
    let ws := { ws with onmessage := some .message_from_server }
    ⟨{ p with websock := some ws, sockets := p.sockets ++ [ws.url] }, none⟩

/-- Call a handler function object.  An event other than a message has no
`data`, and `JSON.parse(undefined)` throws the SyntaxError after the event is
logged. -/
def runHandler (B : Browser) (h : Handler) (evt : Event) : Script :=
  match h with
  | .websock_onopen => websock_onopen evt
  | .websock_onclose => websock_onclose evt
  | .websock_onerror => websock_onerror evt
  | .message_from_server =>
    match evt with
    | .sockMessage data => message_from_server B data
    | _ => fun p => ⟨console_log none evt p, some .SyntaxError⟩

/-- The slot of the socket that an event is delivered to (`load` goes to the
`onload` attribute of `body` instead). -/
def WebSocket.slot (ws : WebSocket) : Event → Option Handler
  | .load => none
  | .sockOpen => ws.onopen
  | .sockClose => ws.onclose
  | .sockError => ws.onerror
  | .sockMessage _ => ws.onmessage

/-- Deliver one event: `load` runs `start()` (the `onload` attribute of `body`);
a socket event runs the handler in the matching slot of `websock`, if any. -/
def dispatch (B : Browser) (evt : Event) : Script := fun p =>
  match evt with
  | .load => start B p
  | _ =>
    match p.websock.bind (fun ws => ws.slot evt) with
    | some h => runHandler B h evt p
    | none => ⟨p, none⟩

/-- The page after one event; an uncaught error is reported and dropped. -/
def step (B : Browser) (p : Page) (evt : Event) : Page :=
  (dispatch B evt p).page

/-- A node waiting for its later siblings. -/
abbrev Item := Dom → Dom

/-- The sequence of the given nodes. -/
def forest (items : List Item) : Dom :=
  items.foldr (fun item rest => item rest) .nil

/-- A text node. -/
def txt (s : String) : Item := fun next => .text s next

/-- An element with the given tag, id and children, and no inline colours. -/
def tagged (tag : String) (id : Option String) (kids : List Item) : Item :=
  fun next => .elem tag id {} (forest kids) next

/-- A row of the table: the label cell and the identified value cell. -/
def row (label : String) (i : String) (content : List Item) : Item :=
  tagged "tr" none [ tagged "td" none [txt label], tagged "td" (some i) content ]

/-- The element `head`.  The text of `style` and `script` is not itemised, and
neither is the white space between tags. -/
def TELEMETRY_HEAD : Item :=
  tagged "head" none
    [ tagged "meta" none [], tagged "meta" none [],
      tagged "title" none [txt "F1 2020 Telemetry Debug"],
      tagged "style" none [], tagged "script" none [] ]

/-- The element `body`. -/
def TELEMETRY_BODY : Item :=
  tagged "body" none
    [ tagged "table" (some "my_table")
        [ tagged "tbody" none
            [ tagged "tr" none
                [ tagged "td" none
                    [ tagged "button" (some "webSockStatus") [txt "Connect"],
                      tagged "button" none [txt "Fullscreen Mode"] ],
                  tagged "td" none [] ],
              row "Gear" "gear" [txt "N"],
              row "Speed, KPH" "speed" [txt "0"],
              row "Engine RPM" "rpm" [txt "0"],
              row "DRS" "drs" [txt "0"],
              row "Rev Lights %" "revLights" [txt "0"],
              row "Engine, °C" "engineTemp" [txt "0"],
              row "Fuel Mix" "fuel_mix" [txt "Standard"],
              row "Front Brake Bias" "front_brake_bias" [txt "50"],
              row "Fuel Remaining, Laps" "fuel_remaining_laps" [],
              row "Roll, Pitch, Yaw, radians" "orientation" [],
              row "ERS Energy" "ers_store_energy" [],
              row "ERS Deploy Mode" "ers_deploy_mode" [],
              row "ERS Deployed This Lap" "ers_deployed_this_lap" [],
              row "Brakes, °C" "brakes" [],
              row "Tyres Surface, °C" "tyres_surface" [],
              row "Tyres Inner, °C" "tyres_inner" [],
              row "Differential on throttle" "diff_on_throttle" [],
              row "Differential off throttle" "diff_off_throttle" [] ] ],
      tagged "script" none [] ]

/-- The document `TELEMETRY_HTML`. -/
def TELEMETRY_HTML : Dom :=
  forest [ tagged "html" none [TELEMETRY_HEAD, TELEMETRY_BODY] ]

/-- The page as first parsed, before `load`: `var websock;` is undefined and
`var connected = false`. -/
def initialPage (loc : Location) : Page :=
  { location := loc, document := TELEMETRY_HTML, websock := none, connected := false,
    console := [], sockets := [] }

/-! ## The message schema of the specification -/

/-- The schema table of the external interface: the fields delivered by each
message type. -/
def schemaRow : Nat → List String
  | 1 => ["gear", "speed", "rpm", "drs", "revLights", "engineTemp"]
  | 2 => ["fuel_mix", "front_brake_bias", "fuel_remaining_laps"]
  | 3 => ["ers_store_energy", "ers_deploy_mode", "ers_deployed_this_lap"]
  | 4 => ["brakes", "tyres_surface", "tyres_inner"]
  | 5 => ["diff_on_throttle", "diff_off_throttle"]
  | 6 => ["orientation"]
  | _ => []

/-- The ids that the branch taken for `obj` passes to `getElementById`, in
source order; empty when no branch is taken. -/
def selected (obj : JVal) : List String :=
  if (obj.get "type").strictEqNum 1 then
    ["gear", "speed", "rpm", "drs", "revLights", "engineTemp"]
  else if (obj.get "type").strictEqNum 2 then
    ["fuel_mix", "front_brake_bias", "fuel_remaining_laps"]
  else if (obj.get "type").strictEqNum 3 then
    ["ers_store_energy", "ers_deploy_mode", "ers_deployed_this_lap"]
  else if (obj.get "type").strictEqNum 4 then
    ["brakes", "tyres_surface", "tyres_inner"]
  else if (obj.get "type").strictEqNum 5 then
    ["diff_on_throttle", "diff_off_throttle"]
  else if (obj.get "type").strictEqNum 6 then
    ["orientation"]
  else []

/-- A page address used in the examples. -/
def sampleLocation : Location := { protocol := "http:", hostname := "192.168.4.1", port := "" }

/-- The address of the page opened from a file: the hostname is empty. -/
def fileLocation : Location := { protocol := "file:", hostname := "", port := "" }

/-- A complete message of type 6. -/
def msgOrientation : JVal :=
  .obj [("type", .num (.finite 6)), ("orientation", .str "0.10,-0.02,1.57")]

/-- A message of type 1 that carries only two of its six fields. -/
def msgGearOnly : JVal :=
  .obj [("type", .num (.finite 1)), ("gear", .str "3"), ("speed", .num (.finite 212))]

/-- A complete message of type 2. -/
def msgFuel : JVal :=
  .obj [("type", .num (.finite 2)), ("fuel_mix", .str "Rich"),
    ("front_brake_bias", .num (.finite 56)), ("fuel_remaining_laps", .str "3.2")]

/-- A message whose type is the string "1", not the number. -/
def msgStringType : JVal :=
  .obj [("type", .str "1"), ("gear", .str "5")]

/-- A complete message of type 1 whose gear is markup with an element that
carries the id of the speed field. -/
def msgInjectSpeed : JVal :=
  .obj [("type", .num (.finite 1)), ("gear", .str "<i id=\"speed\">X</i>"),
    ("speed", .num (.finite 5)), ("rpm", .num (.finite 0)), ("drs", .num (.finite 0)),
    ("revLights", .num (.finite 0)), ("engineTemp", .num (.finite 90))]

/-- A message of type 1 with only a gear, which is the markup of
`msgInjectSpeed`. -/
def msgInjectOnly : JVal :=
  .obj [("type", .num (.finite 1)), ("gear", .str "<i id=\"speed\">X</i>")]

/-- A message of type 1 whose gear is markup with an element that carries the
id of the orientation field. -/
def msgInjectOrientation : JVal :=
  .obj [("type", .num (.finite 1)), ("gear", .str "<b id=\"orientation\">lap</b>")]

/-- A message of type 1 whose gear is markup with an element that carries the
id tyres_surface and holds an element that carries the id brakes. -/
def msgInjectNested : JVal :=
  .obj [("type", .num (.finite 1)),
    ("gear", .str "<p id=\"tyres_surface\"><q id=\"brakes\"></q></p>")]

/-- A complete message of type 4. -/
def msgTyres : JVal :=
  .obj [("type", .num (.finite 4)), ("brakes", .str "300"), ("tyres_surface", .str "90"),
    ("tyres_inner", .str "95")]

/-- A message of type 6 whose orientation is an object with a member named
toString, which is a number and so cannot be called. -/
def msgNoString : JVal :=
  .obj [("type", .num (.finite 6)), ("orientation", .obj [("toString", .num (.finite 0))])]

/-- The text of `msgOrientation`. -/
def textOrientation : String := "\x7b\"type\":6,\"orientation\":\"0.10,-0.02,1.57\"\x7d"

/-- The text of `msgGearOnly`. -/
def textGearOnly : String := "\x7b\"type\":1,\"gear\":\"3\",\"speed\":212\x7d"

/-- The text of `msgFuel`. -/
def textFuel : String :=
  "\x7b\"type\":2,\"fuel_mix\":\"Rich\",\"front_brake_bias\":56,\"fuel_remaining_laps\":\"3.2\"\x7d"

/-- The text of `msgStringType`. -/
def textStringType : String := "\x7b\"type\":\"1\",\"gear\":\"5\"\x7d"

/-- The text of `msgInjectSpeed`. -/
def textInjectSpeed : String :=
  "\x7b\"type\":1,\"gear\":\"<i id=\\\"speed\\\">X</i>\",\"speed\":5,\"rpm\":0,\"drs\":0,\"revLights\":0,\"engineTemp\":90\x7d"

/-- The text of `msgInjectOnly`. -/
def textInjectOnly : String := "\x7b\"type\":1,\"gear\":\"<i id=\\\"speed\\\">X</i>\"\x7d"

/-- The text of `msgInjectOrientation`. -/
def textInjectOrientation : String :=
  "\x7b\"type\":1,\"gear\":\"<b id=\\\"orientation\\\">lap</b>\"\x7d"

/-- The text of `msgInjectNested`. -/
def textInjectNested : String :=
  "\x7b\"type\":1,\"gear\":\"<p id=\\\"tyres_surface\\\"><q id=\\\"brakes\\\"></q></p>\"\x7d"

/-- The text of `msgTyres`. -/
def textTyres : String :=
  "\x7b\"type\":4,\"brakes\":\"300\",\"tyres_surface\":\"90\",\"tyres_inner\":\"95\"\x7d"

/-- The text of `msgNoString`. -/
def textNoString : String := "\x7b\"type\":6,\"orientation\":\x7b\"toString\":0\x7d\x7d"

/-- A text that is not JSON. -/
def textMalformed : String := "gear=3"

/-- The value of `JSON.parse` on the texts above; on any other text it reports
the SyntaxError, as it does on `textMalformed`. -/
def sampleParse (text : String) : Option JVal :=
  if text = textOrientation then some msgOrientation
  else if text = textGearOnly then some msgGearOnly
  else if text = textFuel then some msgFuel
  else if text = textStringType then some msgStringType
  else if text = textInjectSpeed then some msgInjectSpeed
  else if text = textInjectOnly then some msgInjectOnly
  else if text = textInjectOrientation then some msgInjectOrientation
  else if text = textInjectNested then some msgInjectNested
  else if text = textTyres then some msgTyres
  else if text = textNoString then some msgNoString
  else if text = "null" then some .null
  else none

/-- The string conversion of the `innerHTML` setter on the values of the
examples: a string is itself, `undefined` and the booleans are their names,
`null` is the empty string, a whole number is its decimal digits, an object
without a `toString` member is `[object Object]`, and an object with one (which
is never callable in a parsed message) has no conversion.  Other numbers and
arrays do not occur in the examples. -/
def sampleToString : JVal → Option String
  | .undefined => some "undefined"
  | .null => some ""
  | .bool true => some "true"
  | .bool false => some "false"
  | .str s => some s
  | .num (.finite q) => if q.den = 1 then some (toString q.num) else none
  | .num (.infinity _) => none
  | .arr _ => none
  | .obj members => if (members.lookup "toString").isSome then none else some "[object Object]"

/-- The fragment parser on the strings of the examples: the three pieces of
markup used above, the empty string (no node), and otherwise a string without
markup, which is one text node. -/
def sampleFragment (_context : String) (s : String) : Dom :=
  if s = "" then .nil
  else if s = "<i id=\"speed\">X</i>" then
    .elem "i" (some "speed") {} (.text "X" .nil) .nil
  else if s = "<b id=\"orientation\">lap</b>" then
    .elem "b" (some "orientation") {} (.text "lap" .nil) .nil
  else if s = "<p id=\"tyres_surface\"><q id=\"brakes\"></q></p>" then
    .elem "p" (some "tyres_surface") {} (.elem "q" (some "brakes") {} .nil .nil) .nil
  else .text s .nil

/-- The `WebSocket` constructor on the URLs of the examples: it throws the
SyntaxError for the URL with an empty host and accepts the others. -/
def sampleSocketError (_loc : Location) (url : String) : Option JsError :=
  if url = "ws://:81/" then some .SyntaxError else none

/-- The browser of the examples. -/
def sampleBrowser : Browser :=
  { JSON_parse := sampleParse, toDOMString := sampleToString,
    parseFragment := sampleFragment, webSocketError := sampleSocketError }

theorem strictEqNum_iff (v : JVal) (k : ℚ) :
    v.strictEqNum k = true ↔ v = .num (.finite k) := by
  unfold JVal.strictEqNum
  split
  · rename_i q
    constructor
    · intro h
      rw [of_decide_eq_true h]
    · intro h
      injection h with h1
      injection h1 with h2
      simp [h2]
  · rename_i hne
    constructor
    · intro h
      exact absurd h (by simp)
    · intro h
      exact absurd h (hne k)

theorem message_from_server_eq (B : Browser) (data : String) (obj : JVal)
    (p : Page) (h : B.JSON_parse data = some obj) :
    message_from_server B data p =
      if obj.isNullish then ⟨console_log none (.sockMessage data) p, some .TypeError⟩
      else seqAll ((selected obj).map (fun i => setInnerHTML B i (obj.get i)))
        (console_log none (.sockMessage data) p) := by
  unfold message_from_server selected
  simp only [h]
  split_ifs <;> rfl

theorem message_from_server_none (B : Browser) (data : String) (p : Page)
    (h : B.JSON_parse data = none) :
    message_from_server B data p
      = ⟨console_log none (.sockMessage data) p, some .SyntaxError⟩ := by
  unfold message_from_server
  simp only [h]

theorem selected_of_other (obj : JVal)
    (h : ∀ t : Nat, 1 ≤ t → t ≤ 6 → obj.get "type" ≠ .num (.finite t)) :
    selected obj = [] := by
  have hk : ∀ t : Nat, 1 ≤ t → t ≤ 6 → (obj.get "type").strictEqNum (t : ℚ) = false := by
    intro t h1 h6
    cases hs : (obj.get "type").strictEqNum (t : ℚ) with
    | false => rfl
    | true => exact absurd ((strictEqNum_iff _ _).mp hs) (h t h1 h6)
  have e1 := hk 1 (by norm_num) (by norm_num)
  have e2 := hk 2 (by norm_num) (by norm_num)
  have e3 := hk 3 (by norm_num) (by norm_num)
  have e4 := hk 4 (by norm_num) (by norm_num)
  have e5 := hk 5 (by norm_num) (by norm_num)
  have e6 := hk 6 (by norm_num) (by norm_num)
  simp only [Nat.cast_ofNat, Nat.cast_one] at e1 e2 e3 e4 e5 e6
  unfold selected
  simp [e1, e2, e3, e4, e5, e6]

theorem status_not_in_row (t : Nat) : "webSockStatus" ∉ schemaRow t := by
  unfold schemaRow
  split <;> decide

theorem start_accepted (B : Browser) (p : Page)
    (h : B.webSocketError p.location (socketUrl p.location) = none) :
    start B p =
      ⟨{ p with
          websock := some
            { url := socketUrl p.location, onopen := some .websock_onopen,
              onclose := some .websock_onclose, onerror := some .websock_onerror,
              onmessage := some .message_from_server },
          sockets := p.sockets ++ [socketUrl p.location] }, none⟩ := by
  unfold start
  rw [h]

theorem start_refused (B : Browser) (p : Page) (err : JsError)
    (h : B.webSocketError p.location (socketUrl p.location) = some err) :
    start B p = ⟨p, some err⟩ := by
  unfold start
  rw [h]

/-- The string conversion matters as well: for the type 6 message whose
orientation is an object with a toString member that is a number, the write
throws the TypeError and the document is left as it was. -/
theorem unconvertible_value_throws :
    sampleBrowser.JSON_parse textNoString = some msgNoString ∧
    (message_from_server sampleBrowser textNoString (initialPage sampleLocation)).thrown
      = some .TypeError ∧
    (message_from_server sampleBrowser textNoString (initialPage sampleLocation)).page.document
      = (initialPage sampleLocation).document :=
  ⟨by rfl, by decide, by decide⟩

/-- C3: on a payload that `JSON.parse` rejects, `message_from_server` ends with
the uncaught SyntaxError, and the document (every display field and status
colour), the connected flag, the socket, the list of constructed sockets and the
location are exactly what they were; only the console has the logged event. -/
theorem malformed_message_throws (B : Browser) (data : String) (p : Page)
    (hparse : B.JSON_parse data = none) :
    (message_from_server B data p).thrown = some .SyntaxError ∧
      (message_from_server B data p).page.document = p.document ∧
      (message_from_server B data p).page.connected = p.connected ∧
      (message_from_server B data p).page.websock = p.websock ∧
      (message_from_server B data p).page.sockets = p.sockets ∧
      (message_from_server B data p).page.location = p.location ∧
      (message_from_server B data p).page.console
        = p.console ++ [⟨none, .sockMessage data⟩] := by
  rw [message_from_server_none B data p hparse]
  exact ⟨rfl, rfl, rfl, rfl, rfl, rfl, rfl⟩

/-- Witness of C3: the text `gear=3` on the initial page. -/
theorem malformed_message_throws_witness :
    sampleBrowser.JSON_parse textMalformed = none ∧
    (message_from_server sampleBrowser textMalformed (initialPage sampleLocation)).thrown
        = some .SyntaxError ∧
      (message_from_server sampleBrowser textMalformed (initialPage sampleLocation)).page.document
        = (initialPage sampleLocation).document ∧
      (message_from_server sampleBrowser textMalformed (initialPage sampleLocation)).page.connected
        = (initialPage sampleLocation).connected ∧
      (message_from_server sampleBrowser textMalformed (initialPage sampleLocation)).page.websock
        = (initialPage sampleLocation).websock ∧
      (message_from_server sampleBrowser textMalformed (initialPage sampleLocation)).page.sockets
        = (initialPage sampleLocation).sockets ∧
      (message_from_server sampleBrowser textMalformed (initialPage sampleLocation)).page.location
        = (initialPage sampleLocation).location ∧
      (message_from_server sampleBrowser textMalformed (initialPage sampleLocation)).page.console
        = (initialPage sampleLocation).console ++ [⟨none, .sockMessage textMalformed⟩] :=
  ⟨by rfl,
    malformed_message_throws sampleBrowser textMalformed (initialPage sampleLocation) (by rfl)⟩

/-- C8: a well-formed message whose type is none of the numbers 1 to 6 changes
nothing: the document, the connected flag, the socket and the list of
constructed sockets are as before, and for a message that is not null no error
is thrown. -/
theorem other_type_changes_nothing (B : Browser) (data : String)
    (obj : JVal) (p : Page) (hparse : B.JSON_parse data = some obj)
    (hother : ∀ t : Nat, 1 ≤ t → t ≤ 6 → obj.get "type" ≠ .num (.finite (t : ℚ))) :
    (message_from_server B data p).page.document = p.document ∧
      (message_from_server B data p).page.connected = p.connected ∧
      (message_from_server B data p).page.websock = p.websock ∧
      (message_from_server B data p).page.sockets = p.sockets ∧
      (obj.isNullish = false → (message_from_server B data p).thrown = none) := by
  rw [message_from_server_eq B data obj p hparse, selected_of_other obj hother]
  cases hn : obj.isNullish with
  | true => exact ⟨rfl, rfl, rfl, rfl, fun h => absurd h (by simp)⟩
  | false => exact ⟨rfl, rfl, rfl, rfl, fun _ => rfl⟩

/-- Witness of C8: a message whose type is the string "1". -/
theorem other_type_changes_nothing_witness :
    (sampleBrowser.JSON_parse textStringType = some msgStringType ∧
      msgStringType.get "type" = .str "1") ∧
    (message_from_server sampleBrowser textStringType (initialPage sampleLocation)).page.document
        = (initialPage sampleLocation).document ∧
      (message_from_server sampleBrowser textStringType (initialPage sampleLocation)).page.connected
        = (initialPage sampleLocation).connected ∧
      (message_from_server sampleBrowser textStringType (initialPage sampleLocation)).page.websock
        = (initialPage sampleLocation).websock ∧
      (message_from_server sampleBrowser textStringType (initialPage sampleLocation)).page.sockets
        = (initialPage sampleLocation).sockets ∧
      (msgStringType.isNullish = false →
        (message_from_server sampleBrowser textStringType (initialPage sampleLocation)).thrown
          = none) :=
  ⟨⟨by rfl, by rfl⟩,
    other_type_changes_nothing sampleBrowser textStringType msgStringType
      (initialPage sampleLocation) (by rfl)
      (fun t _ _ h => by
        have h2 : JVal.str "1" = .num (.finite (t : ℚ)) := h
        exact JVal.noConfusion h2)⟩

/-! ## The connection -/

/-- C4, amended: `start` calls the `WebSocket` constructor with exactly the URL
made of `ws://`, the hostname of the page and `:81/`, whatever protocol and
port the page was served on.  When the constructor accepts the URL, `start`
returns normally, `websock` is a socket with that URL and the URL joins the
list of constructed sockets; when the constructor throws, `start` ends with
that uncaught error and `websock` and the list stay as they were.  The `load`
event runs `start`. -/
theorem start_url (B : Browser) (p : Page) :
    (B.webSocketError p.location ("ws://" ++ p.location.hostname ++ ":81/") = none →
      (start B p).thrown = none ∧
      (start B p).page.websock.map WebSocket.url
        = some ("ws://" ++ p.location.hostname ++ ":81/") ∧
      (start B p).page.sockets = p.sockets ++ ["ws://" ++ p.location.hostname ++ ":81/"]) ∧
    (∀ err, B.webSocketError p.location ("ws://" ++ p.location.hostname ++ ":81/") = some err →
      (start B p).thrown = some err ∧ (start B p).page.websock = p.websock ∧
      (start B p).page.sockets = p.sockets) ∧
    (∀ proto port : String,
      socketUrl { p.location with protocol := proto, port := port }
        = "ws://" ++ p.location.hostname ++ ":81/") ∧
    step B p .load = (start B p).page := by
  refine ⟨fun h => ?_, fun err h => ?_, fun _ _ => rfl, rfl⟩
  · rw [start_accepted B p h]
    exact ⟨rfl, rfl, rfl⟩
  · rw [start_refused B p err h]
    exact ⟨rfl, rfl, rfl⟩

/-- C4 as stated fails: on the page opened from a file the hostname is empty,
the constructor throws for the URL `ws://:81/`, and `start` ends with the
error having opened no connection: `websock` is still undefined. -/
theorem empty_hostname_opens_nothing :
    socketUrl fileLocation = "ws://:81/" ∧
    ¬ ((start sampleBrowser (initialPage fileLocation)).page.websock.map WebSocket.url
        = some ("ws://" ++ fileLocation.hostname ++ ":81/")) ∧
    (start sampleBrowser (initialPage fileLocation)).thrown = some .SyntaxError ∧
    (start sampleBrowser (initialPage fileLocation)).page.websock = none ∧
    (start sampleBrowser (initialPage fileLocation)).page.sockets = [] :=
  ⟨by decide, by decide, by decide, by decide, by decide⟩

/-- Witness of C4: the page served from 192.168.4.1. -/
theorem start_url_witness :
    (start sampleBrowser (initialPage sampleLocation)).thrown = none ∧
    (start sampleBrowser (initialPage sampleLocation)).page.websock.map WebSocket.url
      = some "ws://192.168.4.1:81/" ∧
    (start sampleBrowser (initialPage sampleLocation)).page.sockets = ["ws://192.168.4.1:81/"] :=
  (start_url sampleBrowser (initialPage sampleLocation)).1 (by decide)

end Telemetry
